import Mathlib

/-!
Verification development for `access_system.py` (WTSI-SCGCF/Access), `quant` mode.

The definitions below are a shallow embedding of the planning-and-supervision
engine of the script: the LIMS plate-grouping validation
(`validate_data_lims_src_plt_grp`), the three Echo transfer-csv generators
(`generate_sources_to_standards_csv_file`,
`generate_sources_to_corning_black_csv_file`,
`generate_standards_to_corning_black_csv_file`), the RunDef dictionary and
template substitution (`generate_quantification_rundef_dictionary`,
`create_rundef_file_from_template`), the Tempo run monitoring
(`check_rundef_file_and_extract_run_ids`, `monitor_tempo_run_directory`,
`perform_post_run_actions`) and the bounded message queue (`display_message`).

Python dictionaries keyed by `str(i)` for `i = 1..n` are modelled as Lean
lists indexed from zero (`get? (i-1)`); numeric configuration values that the
script merely copies into output rows (transfer volumes) are carried as `Int`;
no arithmetic is ever performed on them.  Fallible operations (Python
`KeyError` / `IndexError` caught by the surrounding `try/except`, which makes
the generator return `False`) are modelled with `Option`.
-/

namespace AccessSystem

/-! ## Data model: LIMS plate grouping file (JSON input) -/

/-- One well entry of a LIMS plate: `{"POSITION": ..., "ROLE": ...}`. -/
structure LimsWell where
  position : String
  role : String
deriving DecidableEq, Repr

/-- One plate entry of the LIMS plate-grouping file. -/
structure LimsPlate where
  barcode : String
  libraryPrepParams : String
  standardsParams : String
  wells : List LimsWell
deriving DecidableEq, Repr

/-- The raw LIMS plate-grouping document.  The two top-level keys
`LIMS_PLATE_GROUP_ID` and `PLATES` may be absent, modelled with `Option`
(the script checks `has_key` for each). -/
structure RawGroupDoc where
  limsPlateGroupId : Option String
  plates : Option (List LimsPlate)
deriving DecidableEq, Repr

/-- The supported standards types: `valid_quant_standards = ['SS2']`. -/
def valid_quant_standards : List String := ["SS2"]

/-! ## Data model: standards configuration file -/

/-- One `Ladder` sub-section of the standards configuration
(`well_posn`, `vol_to_dispense_nl`, `black_plt_well_locns`).  The script also
parses `concentration_ng_ul`, which none of the transfer-plan generators read;
it is omitted from the embedding. -/
structure LadderWell where
  well_posn : String
  vol_to_dispense_nl : Int
  black_plt_well_locns : List String
deriving DecidableEq, Repr

/-- One `Pools` sub-section of the standards configuration, keyed by source
plate ordinal (`standards_plt_pool_locn`, `black_plt_well_locns`). -/
structure PoolSource where
  standards_plt_pool_locn : String
  black_plt_well_locns : List String
deriving DecidableEq, Repr

/-- The parsed standards configuration (`quant_standards[stnd_type]`).
`ladderWells` holds the sub-sections keyed `1..num_of_ladder_wells` and
`poolSources` the sub-sections keyed `1..max_num_sources`;
the parser (`parse_quant_standards_config_file`) builds exactly that many. -/
structure StandardsConfig where
  stnd_plt_stk_posn : Int
  num_of_ladder_wells : Nat
  num_of_ladder_reps_black_plate : Nat
  num_of_pool_reps_black_plate : Nat
  vol_src_to_pool_nl : Int
  vol_src_to_black_plate_nl : Int
  vol_pool_to_black_plate_nl : Int
  max_num_sources : Nat
  ladderWells : List LadderWell
  poolSources : List PoolSource
deriving DecidableEq, Repr

/-! ## Validation of the LIMS plate-grouping data
(`QuantificationGUI.validate_data_lims_src_plt_grp`) -/

/-- Per-plate summary stored in `data_summary['plts_dict']`. -/
structure PlateSummary where
  barcode : String
  library_prep_params : String
  standards_params : String
  count_sample_wells : Nat
  count_control_wells : Nat
deriving DecidableEq, Repr

/-- State of `self.data_summary` after successful validation.  The raw plate list is
carried alongside (the script keeps it in `self.data_lims_src_plt_grp`, which
the csv generators read directly). -/
structure DataSummary where
  lims_reference_id : String
  plates : List LimsPlate
  plts_dict : List PlateSummary
  standards_type : String
deriving DecidableEq, Repr

/-- The `standards_types` dictionary of the validation loop: the set of
distinct `STANDARDS_PARAMS` values, in first-appearance order (the script
counts occurrences in a dict; only the key set and its size are used). -/
def collectStandardsTypes (acc : List String) : List LimsPlate → List String
  | [] => acc
  | p :: rest =>
    if p.standardsParams ∈ acc then collectStandardsTypes acc rest
    else collectStandardsTypes (acc ++ [p.standardsParams]) rest

/-- Summary entry built for one plate inside the validation loop. -/
def summarisePlate (p : LimsPlate) : PlateSummary :=
  { barcode := p.barcode
    library_prep_params := p.libraryPrepParams
    standards_params := p.standardsParams
    count_sample_wells := (p.wells.filter (fun w => w.role = "SAMPLE")).length
    count_control_wells := (p.wells.filter (fun w => w.role = "CONTROL")).length }

/-- Embedding of `validate_data_lims_src_plt_grp`: checks the expected top-level fields,
rejects an empty plate list, rejects any unsupported standards type, rejects
a group resolving to zero or more than one distinct standards type, and on
success resolves the single standards type (`standards_types.keys()[0]`).
`none` models the method reporting an error and returning `False`. -/
def validate_data_lims_src_plt_grp (doc : RawGroupDoc) : Option DataSummary :=
  match doc.limsPlateGroupId, doc.plates with
  | some gid, some plates =>
    if plates.length = 0 then none
    else if plates.any (fun p => ¬ p.standardsParams ∈ valid_quant_standards) then none
    else
      let types := collectStandardsTypes [] plates
      if types.length = 0 ∨ 1 < types.length then none
      else some { lims_reference_id := gid
                  plates := plates
                  plts_dict := plates.map summarisePlate
                  standards_type := types.headD "" }
  | _, _ => none

/-! ## Echo transfer csv generation
(`generate_sources_to_standards_csv_file`,
`generate_sources_to_corning_black_csv_file`,
`generate_standards_to_corning_black_csv_file`)

Each generator writes one fixed header row and then one csv row per transfer.
A `None` barcode is written by `csv.writer` as an empty cell, modelled with
`Option String`. -/

/-- One data row of a transfer csv file (the nine columns written by
`csv_writer.writerow`). -/
structure TransferRow where
  srcPlateName : String
  srcPlateBarcode : Option String
  srcPlateType : String
  srcWell : String
  transferVolume : Int
  destPlateName : String
  destPlateBarcode : Option String
  destPlateType : String
  destWell : String
deriving DecidableEq, Repr

/-- The fixed header row written first into each of the three csv files. -/
def csvHeader : List String :=
  ["Source Plate Name", "Source Plate Barcode", "Source Plate Type", "Source Well",
   "Transfer Volume", "Destination Plate Name", "Destination Plate Barcode",
   "Destination Plate Type", "Destination well"]

/-- Cells of one data row, as written by `csv.writer` (a `None` value becomes
an empty cell). -/
def TransferRow.cells (r : TransferRow) : List String :=
  [r.srcPlateName, r.srcPlateBarcode.getD "", r.srcPlateType, r.srcWell,
   toString r.transferVolume, r.destPlateName, r.destPlateBarcode.getD "",
   r.destPlateType, r.destWell]

/-- Sequence a fallible computation over a list, failing if any element
fails (a Python `KeyError`/`IndexError` escaping to the `except` clause). -/
def optMapList (f : α → Option β) : List α → Option (List β)
  | [] => some []
  | a :: rest =>
    match f a, optMapList f rest with
    | some b, some bs => some (b :: bs)
    | _, _ => none

/-- The well filter used by both source-plate generators:
`ROLE == "SAMPLE" or ROLE == "CONTROL"`. -/
def isSampleOrControl (w : LimsWell) : Bool :=
  w.role = "SAMPLE" || w.role = "CONTROL"

/-- Rows emitted for one source plate (ordinal `k`, 1-based) by
`generate_sources_to_standards_csv_file`: one row per SAMPLE/CONTROL well,
into that plate's pooling position on the standards plate. -/
def srcToStandardsPlateRows (cfg : StandardsConfig) (k : Nat) (p : LimsPlate)
    (poolLocn : String) : List TransferRow :=
  (p.wells.filter isSampleOrControl).map fun w =>
    { srcPlateName := "DNAQ_source_" ++ toString k
      srcPlateBarcode := some p.barcode
      srcPlateType := "384PP_AQ_SP_High"
      srcWell := w.position
      transferVolume := cfg.vol_src_to_pool_nl
      destPlateName := "DNAQ_standards"
      destPlateBarcode := none
      destPlateType := "384PP_Dest"
      destWell := poolLocn }

/-- The plate loop of `generate_sources_to_standards_csv_file`
(`while i_plt_idx <= num_src_plts`), starting at ordinal `k`.  The lookup
`quant_standards[...]['Pools']['sources'][s_plt_idx]` raises `KeyError`
(hence `none`) when the plate ordinal is beyond `max_num_sources`. -/
def srcToStandardsGo (cfg : StandardsConfig) : Nat → List LimsPlate → Option (List TransferRow)
  | _, [] => some []
  | k, p :: rest =>
    match cfg.poolSources.get? (k - 1), srcToStandardsGo cfg (k + 1) rest with
    | some ps, some more => some (srcToStandardsPlateRows cfg k p ps.standards_plt_pool_locn ++ more)
    | _, _ => none

/-- Data rows of the Source→Pool csv file. -/
def generate_sources_to_standards_rows (s : DataSummary) (cfg : StandardsConfig) :
    Option (List TransferRow) :=
  srcToStandardsGo cfg 1 s.plates

/-- The Source→Pool csv file: the fixed header row followed by the data rows. -/
def sources_to_standards_csv (s : DataSummary) (cfg : StandardsConfig) :
    Option (List (List String)) :=
  (generate_sources_to_standards_rows s cfg).map fun rows => csvHeader :: rows.map (·.cells)

/-- Rows emitted for one source plate (ordinal `k`) by
`generate_sources_to_corning_black_csv_file`: one row per SAMPLE/CONTROL well,
to the identical well position on that plate's black plate `DNAQ_black_k`. -/
def srcToBlackPlateRows (cfg : StandardsConfig) (k : Nat) (p : LimsPlate) : List TransferRow :=
  (p.wells.filter isSampleOrControl).map fun w =>
    { srcPlateName := "DNAQ_source_" ++ toString k
      srcPlateBarcode := some p.barcode
      srcPlateType := "384PP_AQ_SP_High"
      srcWell := w.position
      transferVolume := cfg.vol_src_to_black_plate_nl
      destPlateName := "DNAQ_black_" ++ toString k
      destPlateBarcode := none
      destPlateType := "Corning_384PS_Black"
      destWell := w.position }

/-- The plate loop of `generate_sources_to_corning_black_csv_file` (total:
it reads only the plate's own wells and barcode). -/
def srcToBlackGo (cfg : StandardsConfig) : Nat → List LimsPlate → List TransferRow
  | _, [] => []
  | k, p :: rest => srcToBlackPlateRows cfg k p ++ srcToBlackGo cfg (k + 1) rest

/-- Data rows of the Source→Black csv file. -/
def generate_sources_to_black_rows (s : DataSummary) (cfg : StandardsConfig) :
    List TransferRow :=
  srcToBlackGo cfg 1 s.plates

/-- The Source→Black csv file: fixed header row followed by the data rows. -/
def sources_to_black_csv (s : DataSummary) (cfg : StandardsConfig) : List (List String) :=
  csvHeader :: (generate_sources_to_black_rows s cfg).map (·.cells)

/-- Destination plate name used throughout the Standards→Black file:
`'DNAQ_black_' + str(num_src_plts + 1)`. -/
def standardsBlackPlateName (s : DataSummary) : String :=
  "DNAQ_black_" ++ toString (s.plates.length + 1)

/-- One ladder row of `generate_standards_to_corning_black_csv_file`:
ladder well `ladIdx` (1-based), replicate `repIdx` (0-based).  Both the
ladder-well lookup and the replicate-destination indexing can raise
(`KeyError`/`IndexError`), caught by the `except` clause. -/
def ladderRow (cfg : StandardsConfig) (destName : String) (repIdx ladIdx : Nat) :
    Option TransferRow :=
  match cfg.ladderWells.get? (ladIdx - 1) with
  | none => none
  | some lw =>
    match lw.black_plt_well_locns.get? repIdx with
    | none => none
    | some destWell =>
      some { srcPlateName := "DNAQ_standards"
             srcPlateBarcode := none
             srcPlateType := "384PP_AQ_SP_High"
             srcWell := lw.well_posn
             transferVolume := lw.vol_to_dispense_nl
             destPlateName := destName
             destPlateBarcode := none
             destPlateType := "Corning_384PS_Black"
             destWell := destWell }

/-- Inner ladder loop (`while i_ladder_idx <= num_ladder_wells`) for one
replicate index. -/
def ladderRowsForRep (cfg : StandardsConfig) (destName : String) (repIdx : Nat) :
    Option (List TransferRow) :=
  optMapList (fun j => ladderRow cfg destName repIdx (j + 1)) (List.range cfg.num_of_ladder_wells)

/-- Outer ladder loop (`while i_ladder_rep_idx < num_ladder_reps`). -/
def ladderRowsAll (cfg : StandardsConfig) (destName : String) : Option (List TransferRow) :=
  (optMapList (ladderRowsForRep cfg destName)
      (List.range cfg.num_of_ladder_reps_black_plate)).map List.flatten

/-- Pool rows for one source plate ordinal `k` (1-based): one row per pool
replicate, from that plate's pooling well to its replicate-indexed
destination on the standards black plate. -/
def poolRowsForPlate (cfg : StandardsConfig) (destName : String) (k : Nat) :
    Option (List TransferRow) :=
  match cfg.poolSources.get? (k - 1) with
  | none => none
  | some ps =>
    optMapList
      (fun r =>
        match ps.black_plt_well_locns.get? r with
        | none => none
        | some destWell =>
          some { srcPlateName := "DNAQ_standards"
                 srcPlateBarcode := none
                 srcPlateType := "384PP_AQ_SP_High"
                 srcWell := ps.standards_plt_pool_locn
                 transferVolume := cfg.vol_pool_to_black_plate_nl
                 destPlateName := destName
                 destPlateBarcode := none
                 destPlateType := "Corning_384PS_Black"
                 destWell := destWell })
      (List.range cfg.num_of_pool_reps_black_plate)

/-- Pool loop over the source plates (`while i_plt_idx <= num_src_plts`). -/
def poolRowsAll (cfg : StandardsConfig) (destName : String) (numSrcPlts : Nat) :
    Option (List TransferRow) :=
  (optMapList (fun j => poolRowsForPlate cfg destName (j + 1))
      (List.range numSrcPlts)).map List.flatten

/-- Data rows of the Standards→Black csv file: all ladder replicate rows
followed by all pool replicate rows. -/
def generate_standards_to_black_rows (s : DataSummary) (cfg : StandardsConfig) :
    Option (List TransferRow) :=
  match ladderRowsAll cfg (standardsBlackPlateName s),
        poolRowsAll cfg (standardsBlackPlateName s) s.plates.length with
  | some ladder, some pools => some (ladder ++ pools)
  | _, _ => none

/-- The Standards→Black csv file: fixed header row followed by the data rows. -/
def standards_to_black_csv (s : DataSummary) (cfg : StandardsConfig) :
    Option (List (List String)) :=
  (generate_standards_to_black_rows s cfg).map fun rows => csvHeader :: rows.map (·.cells)

/-- Total number of SAMPLE/CONTROL wells across the group's plates
(the `sum(S_k)` of the row-count property). -/
def sampleControlTotal (s : DataSummary) : Nat :=
  (s.plates.map (fun p => (p.wells.filter isSampleOrControl).length)).sum

/-- The end-to-end file production gated by validation: the csv generators run
only after `validate_data_lims_src_plt_grp` has returned `True`
(`read_Lims_file_and_display_summary` stops otherwise, and the create-files
button is never enabled), so a rejected document yields zero output files. -/
def process_group_files (doc : RawGroupDoc) (cfg : StandardsConfig) :
    List (Option (List (List String))) :=
  match validate_data_lims_src_plt_grp doc with
  | none => []
  | some s =>
    [sources_to_standards_csv s cfg, some (sources_to_black_csv s cfg),
     standards_to_black_csv s cfg]

/-! ## RunDef creation from template
(`QuantificationGUI.create_rundef_file_from_template`)

The method copies the template line by line, applying
`u_line.replace(dict_key, quant_rundef_dict[dict_key])` for every key of the
substitution dictionary; a line matching no key is written unchanged.  The
only failure path is the `except` around the file I/O. -/

/-- Python `str.replace(old, new)`: replace every non-overlapping occurrence
of `old`, scanning left to right.  The substitution keys of the script are
the fixed non-empty `SSS_..._SSS` literals; for an empty `old` this embedding
returns the string unchanged. -/
def pyReplace (old new : List Char) : List Char → List Char
  | [] => []
  | c :: rest =>
    if h : old ≠ [] ∧ old.isPrefixOf (c :: rest) then
      new ++ pyReplace old new ((c :: rest).drop old.length)
    else
      c :: pyReplace old new rest
termination_by s => s.length
decreasing_by
  · simp only [List.length_drop, List.length_cons]
    have hpos : 0 < old.length := List.length_pos.mpr h.1
    omega
  · simp [Nat.lt_succ_self]

/-- One pass of the inner key loop over a single template line. -/
def substituteLine (dict : List (String × String)) (line : String) : String :=
  dict.foldl (fun l kv => ⟨pyReplace kv.1.data kv.2.data l.data⟩) line

/-- Embedding of `create_rundef_file_from_template`: every line of the template is copied
across with all substitutions applied (exactly one output line per template
line; nothing else can fail apart from the file I/O). -/
def create_rundef_file_from_template (dict : List (String × String))
    (templateLines : List String) : List String :=
  templateLines.map (substituteLine dict)

/-! ## Run-monitoring state machine -/

/-- One `<Run>` node of a Tempo-processed RunDef file: the `RunID` attribute
(`None` when absent) and the `<Definition><ReferenceID>` text. -/
structure RunNode where
  runId : Option String
  referenceId : String
deriving DecidableEq, Repr

/-- Python `str.split(';')` (always returns at least one part). -/
def splitOnSemi : List Char → List (List Char)
  | [] => [[]]
  | c :: rest =>
    let parts := splitOnSemi rest
    if c = ';' then [] :: parts
    else
      match parts with
      | p :: pt => (c :: p) :: pt
      | [] => [[c]]

/-- Outcome of `check_rundef_file_and_extract_run_ids`. -/
inductive CheckRundefOutcome
  /-- All checks passed: `self.current_run_identifiers` is set to the listed
  `(run_identifier_name, run_id_num)` pairs and `monitor_tempo_rundef_run(0)`
  starts per-run monitoring of the first run. -/
  | monitorFirstRun (runIdentifiers : List (String × String))
  /-- A check failed: an error is shown via `display_message` and the method
  returns without starting any monitoring. -/
  | errorReported
  /-- The run-count check failed: the error branch evaluates `run_ids.len`,
  which raises `AttributeError` on a Python list, so the method dies with an
  uncaught exception before `display_message` is ever called. -/
  | attributeErrorCrash
deriving DecidableEq, Repr

/-- The per-`Run`-node extraction loop: splits each `ReferenceID` at `;`
(an absent second part raises `IndexError` on `run_ref_split[1]`, caught and
reported), compares the first part against the LIMS reference id, and rejects
a `RunID` that is `None` or `'0'`. -/
def extractRunIds (limsReferenceId : String) : List RunNode → Except Unit (List String)
  | [] => .ok []
  | n :: rest =>
    let parts := splitOnSemi n.referenceId.data
    if parts.length < 2 then .error ()
    else if ¬ String.mk (parts.headD []) = limsReferenceId then .error ()
    else
      match n.runId with
      | none => .error ()
      | some rid =>
        if rid = "0" then .error ()
        else
          match extractRunIds limsReferenceId rest with
          | .error e => .error e
          | .ok ids => .ok (rid :: ids)

/-- Embedding of `check_rundef_file_and_extract_run_ids`: extract and validate the run ids,
then check the count expected for the current rundef stage
(`dnaq_process_standards` expects 2, `dnaq_process_dna_sources` expects 1). -/
def check_rundef_file_and_extract_run_ids (rundefIdentifier : String)
    (limsReferenceId : String) (runNodes : List RunNode) : CheckRundefOutcome :=
  match extractRunIds limsReferenceId runNodes with
  | .error _ => .errorReported
  | .ok runIds =>
    if rundefIdentifier = "dnaq_process_standards" then
      match runIds with
      | [id1, id2] =>
        .monitorFirstRun
          [("dnaq_process_standards_run_1", id1), ("dnaq_process_standards_run_2", id2)]
      | _ => .attributeErrorCrash
    else if rundefIdentifier = "dnaq_process_dna_sources" then
      match runIds with
      | [id1] => .monitorFirstRun [("dnaq_process_dna_sources_run_1", id1)]
      | _ => .attributeErrorCrash
    else .errorReported

/-- What one poll of `monitor_tempo_run_directory` observes about the
run-specific `.run` state file. -/
inductive RunFileObservation
  /-- The run directory or `.run` file does not exist yet
  (`current_runstate` stays `None`). -/
  | noFile
  /-- Parsing the `.run` file raised an exception
  (caught by the `except` clause). -/
  | parseFailure
  /-- The `<RunState>` element text. -/
  | runState (s : String)
deriving DecidableEq, Repr

/-- The action `monitor_tempo_run_directory` takes after one poll. -/
inductive MonitorAction
  /-- Path `display_message(True, ...)` then `return False`: the error is reported
  and the method returns without scheduling another poll. -/
  | reportErrorAndStop
  /-- Path `perform_post_run_actions()` then `return`: no further poll of this
  run's state file is scheduled. -/
  | postRunActions
  /-- Path `perform_run_stopped_actions()` then `return`. -/
  | runStoppedActions
  /-- A waiting message, then `self.root.after(2000, ...)` re-schedules the
  same poll. -/
  | reschedule
deriving DecidableEq, Repr

/-- One poll step of `monitor_tempo_run_directory`. -/
def monitor_tempo_run_directory_step (obs : RunFileObservation) : MonitorAction :=
  match obs with
  | .noFile => .reschedule
  | .parseFailure => .reportErrorAndStop
  | .runState s =>
    if s = "Complete" then .postRunActions
    else if s = "Stopped" then .runStoppedActions
    else .reschedule

/-- Number of `perform_post_run_actions` invocations over a whole monitoring
trace of one run: polls are consumed while the step reschedules; the first
non-rescheduling step ends the loop (any later observations in the list are
never looked at, because no further poll of this run's file is scheduled). -/
def postActionInvocations : List RunFileObservation → Nat
  | [] => 0
  | obs :: rest =>
    match monitor_tempo_run_directory_step obs with
    | .reschedule => postActionInvocations rest
    | .postRunActions => 1
    | _ => 0

/-- What `perform_post_run_actions` does after its run-specific block. -/
inductive PostRunOutcome
  /-- Call `monitor_tempo_rundef_run(idx)`: monitoring moves on to the next run of
  the stage. -/
  | monitorNextRun (runIndex : Nat)
  /-- The completion message for the last run of the stage is displayed and
  the method returns: the stage is complete. -/
  | stageComplete
  /-- The unrecognised-identifier error branch. -/
  | unrecognisedIdentifier
deriving DecidableEq, Repr

/-- Embedding of `perform_post_run_actions`, dispatching on the current run identifier
name. -/
def perform_post_run_actions (runIdentifierName : String) : PostRunOutcome :=
  if runIdentifierName = "dnaq_process_standards_run_1" then .monitorNextRun 1
  else if runIdentifierName = "dnaq_process_standards_run_2" then .stageComplete
  else if runIdentifierName = "dnaq_process_dna_sources_run_1" then .stageComplete
  else .unrecognisedIdentifier

/-! ## RunDef dictionary plate rows
(`QuantificationGUI.generate_quantification_rundef_dictionary`)

Each `<Plate .../>` descriptor row and each plate-storage csv row is modelled
as a record holding the values interpolated into the corresponding format
string.  Stack positions are Python ints, modelled as `Int`. -/

/-- Zero padding `"0" + str(n)` for `n < 10`, else `str(n)`: the zero-padded plate number
used in `DNAQ_source_%s` / `DNAQ_black_%s` platemap names. -/
def zeroPad2 (n : Nat) : String :=
  if n < 10 then "0" ++ toString n else toString n

/-- One `<Plate .../>` descriptor row: the values substituted into the format
string (`EchoPlateID`, `PlateName`, `PlateType`, `Barcode`, `PlateCategory`,
and the deck number and stack position of `LocationURL`). -/
structure PlateMapRow where
  echoPlateId : Nat
  plateName : String
  plateType : String
  barcode : String
  category : String
  locationDeck : Nat
  locationPosn : Int
deriving DecidableEq, Repr

/-- A source-plate platemap row (`PlateCategory="Source"`, stack on deck 1). -/
def mkSourcePlateRow (echoId : Nat) (plateNum : String) (barcode : String)
    (stkPosn : Int) : PlateMapRow :=
  { echoPlateId := echoId
    plateName := "DNAQ_source_" ++ plateNum
    plateType := "384PP"
    barcode := barcode
    category := "Source"
    locationDeck := 1
    locationPosn := stkPosn }

/-- Remaining source rows of the pooling platemap block (`while i_src_idx <=
num_src_plts`, started at index 2 after the first row). -/
def poolingSourceRowsGo : Nat → Int → List String → List PlateMapRow
  | _, _, [] => []
  | k, stkPosn, b :: rest =>
    mkSourcePlateRow k (zeroPad2 k) b stkPosn :: poolingSourceRowsGo (k + 1) (stkPosn + 1) rest

/-- Rows of `SSS_POOLING_PLATEMAP_ROWS_SSS`: the first source plate row, then the
standards destination plate row (fixed stack position from the standards
configuration), then the remaining source plate rows.  The first-plate access
`plts_dict['1']` is unreachable for an empty validated group. -/
def pooling_platemap_rows (barcodes : List String) (initStkPosn : Int)
    (stndPltStkPosn : Int) : List PlateMapRow :=
  match barcodes with
  | [] => []
  | b :: rest =>
    mkSourcePlateRow 1 (zeroPad2 1) b initStkPosn ::
    { echoPlateId := barcodes.length + 1
      plateName := "DNAQ_standards"
      plateType := "384PP_Dest"
      barcode := ""
      category := "Destination"
      locationDeck := 1
      locationPosn := stndPltStkPosn } ::
    poolingSourceRowsGo 2 (initStkPosn + 1) rest

/-- The interleaved source/destination loop of
`SSS_SOURCES_PLATEMAP_ROWS_SSS`: for each source plate one source row (stack
position ascending from the configured initial position on deck 1) and one
black destination row (stack position descending from the operator-reported
loaded count on deck 4, `FinalLocation` deck 3). -/
def sourcesToBlackRowsGo (numSrcPlts : Nat) : Nat → Int → Int → List String → List PlateMapRow
  | _, _, _, [] => []
  | k, srcStkPosn, destStkPosn, b :: rest =>
    mkSourcePlateRow k (zeroPad2 k) b srcStkPosn ::
    { echoPlateId := numSrcPlts + k
      plateName := "DNAQ_black_" ++ zeroPad2 k
      plateType := "Corning_384PS_Black"
      barcode := ""
      category := "Destination"
      locationDeck := 4
      locationPosn := destStkPosn } ::
    sourcesToBlackRowsGo numSrcPlts (k + 1) (srcStkPosn + 1) (destStkPosn - 1) rest

/-- Rows of `SSS_SOURCES_PLATEMAP_ROWS_SSS` (`numBlkPlatesDeck` is
`self.num_blk_plates_deck.get()`, the operator-reported loaded count). -/
def sources_platemap_rows (barcodes : List String) (initStkPosn : Int)
    (numBlkPlatesDeck : Int) : List PlateMapRow :=
  sourcesToBlackRowsGo barcodes.length 1 initStkPosn numBlkPlatesDeck barcodes

/-- Rows of `SSS_STANDARDS_PLATEMAP_ROWS_SSS`: the standards source plate row (fixed
stack position) and the standards black destination plate row, numbered
`num_src_plts + 1` and placed at stack position
`num_blk_plates_deck - num_src_plts`. -/
def standards_platemap_rows (numSrcPlts : Nat) (stndPltStkPosn : Int)
    (numBlkPlatesDeck : Int) : List PlateMapRow :=
  [{ echoPlateId := 1
     plateName := "DNAQ_standards"
     plateType := "384PP"
     barcode := ""
     category := "Source"
     locationDeck := 1
     locationPosn := stndPltStkPosn },
   { echoPlateId := 2
     plateName := "DNAQ_black_" ++ zeroPad2 (numSrcPlts + 1)
     plateType := "Corning_384PS_Black"
     barcode := ""
     category := "Destination"
     locationDeck := 4
     locationPosn := numBlkPlatesDeck - numSrcPlts }]

/-- One plate-storage csv row for a destination black plate: the plate-storage
id, the (unpadded) number in the `DNAQ_black_%s` name, and the deck-4 stack
position. -/
structure StorageDestRow where
  plateId : Int
  plateNameNum : Int
  stackPosn : Int
deriving DecidableEq, Repr

/-- The destination-plate loop of `SSS_PLATE_STORAGE_DEST_PLATES_SSS`
(`while i_dest_idx <= num_blk_plates_deck`): storage ids count down from
1880, the name number counts down from the loaded count while the stack
position counts up from 1 (LIFO stack numbered from the top downwards). -/
def storageDestRowsGo : Int → Int → Int → Nat → List StorageDestRow
  | _, _, _, 0 => []
  | plateId, nameNum, stkPosn, remaining + 1 =>
    ⟨plateId, nameNum, stkPosn⟩ ::
    storageDestRowsGo (plateId - 1) (nameNum - 1) (stkPosn + 1) remaining

/-- Rows of `SSS_PLATE_STORAGE_DEST_PLATES_SSS` for an operator-reported loaded count
of `numBlkPlatesDeck` black plates. -/
def plate_storage_dest_rows (numBlkPlatesDeck : Nat) : List StorageDestRow :=
  storageDestRowsGo 1880 (numBlkPlatesDeck : Int) 1 numBlkPlatesDeck

/-- Helper: the contiguous ascending stack positions starting at `posn`. -/
def contiguousFrom (posn : Int) (n : Nat) : List Int :=
  (List.range n).map (fun (j : Nat) => posn + (j : Int))

/-! ## Well-position arithmetic (spec §4.3, §8)

Modelled from the spec: the repository's `src` contains only the
explicit-list encoding of replicate destination wells
(`black_plt_well_locns`); the relative well-position arithmetic described in
the spec ("given an initial position (row letter + column number) and a
1-based replicate index, the destination column is
`initialColumn + (replicateIndex - 1)`; fails with `PlateBoundaryError` if
the resulting column exceeds the plate's column count (24 for the supported
plate format)") belongs to a configuration variant that is not under `src`. -/

/-- Modelled from the spec: a well position, row letter plus column number. -/
structure WellPos where
  row : Char
  col : Nat
deriving DecidableEq, Repr

/-- Modelled from the spec: the supported plate format has 24 columns. -/
def plateColumnCount : Nat := 24

/-- Modelled from the spec: render a `WellPos` such as `⟨'A', 24⟩` as "A24". -/
def WellPos.render (p : WellPos) : String :=
  String.mk [p.row] ++ toString p.col

/-- Modelled from the spec: pure well-position arithmetic for replicate
placement.  The destination keeps the row letter; its column is
`initialColumn + (replicateIndex - 1)`; the computation fails (does not
wrap) with a `PlateBoundaryError` when that column exceeds
`plateColumnCount`. -/
def replicateWellPosition (initial : WellPos) (replicateIndex : Nat) :
    Except String WellPos :=
  let newCol := initial.col + (replicateIndex - 1)
  if plateColumnCount < newCol then .error "PlateBoundaryError"
  else .ok ⟨initial.row, newCol⟩

/-! ## Message queue (`QuantificationGUI.display_message`) -/

/-- The bound `message_queue_size = 25`. -/
def message_queue_size : Nat := 25

/-- One queued message: `{'is_error': ..., 'msg': timestamp + message}`. -/
structure QueuedMessage where
  is_error : Bool
  msg : String
deriving DecidableEq, Repr

/-- Embedding of `display_message`: append the new message at the right of the deque; if
the length now exceeds `message_queue_size`, `popleft()` the oldest one. -/
def display_message (queue : List QueuedMessage) (is_error : Bool) (message : String) :
    List QueuedMessage :=
  let queue' := queue ++ [⟨is_error, message⟩]
  if message_queue_size < queue'.length then queue'.tail else queue'

/-! ## Concrete sample inputs (used by the witness theorems) -/

/-- Sample standards configuration: two ladder wells with two replicates
each, two pool sources with two replicates each. -/
def cfgW : StandardsConfig :=
  { stnd_plt_stk_posn := 4
    num_of_ladder_wells := 2
    num_of_ladder_reps_black_plate := 2
    num_of_pool_reps_black_plate := 2
    vol_src_to_pool_nl := 100
    vol_src_to_black_plate_nl := 50
    vol_pool_to_black_plate_nl := 25
    max_num_sources := 2
    ladderWells := [⟨"A1", 200, ["A1", "A2"]⟩, ⟨"B1", 300, ["B1", "B2"]⟩]
    poolSources := [⟨"P23", ["C1", "C2"]⟩, ⟨"P24", ["D1", "D2"]⟩] }

/-- Sample plate declaring the supported standards type. -/
def plateW1 : LimsPlate :=
  ⟨"BC0001", "LP1", "SS2", [⟨"A1", "SAMPLE"⟩, ⟨"A2", "CONTROL"⟩, ⟨"A3", "EMPTY"⟩]⟩

/-- Sample plate declaring a different standards type. -/
def plateW2 : LimsPlate :=
  ⟨"BC0002", "LP1", "GDNA", [⟨"B1", "SAMPLE"⟩]⟩

/-- Sample document whose plates declare two distinct standards types. -/
def docMixedW : RawGroupDoc :=
  ⟨some "G1", some [plateW1, plateW2]⟩

/-- Sample validated summary for a single-plate group. -/
def summaryW : DataSummary :=
  { lims_reference_id := "G1"
    plates := [plateW1]
    plts_dict := [summarisePlate plateW1]
    standards_type := "SS2" }

/-- Sample Source→Black transfer row produced for well A1 of `plateW1`. -/
def rowW : TransferRow :=
  { srcPlateName := "DNAQ_source_1"
    srcPlateBarcode := some "BC0001"
    srcPlateType := "384PP_AQ_SP_High"
    srcWell := "A1"
    transferVolume := 50
    destPlateName := "DNAQ_black_1"
    destPlateBarcode := none
    destPlateType := "Corning_384PS_Black"
    destWell := "A1" }

/-! ## Shared helper lemmas -/

/-- Helper: once the single standards type is in the accumulator, the
collection loop leaves it unchanged. -/
lemma collectStandardsTypes_mem_fixed (t : String) :
    ∀ (plates : List LimsPlate) (acc : List String),
      (∀ p ∈ plates, p.standardsParams = t) → t ∈ acc →
      collectStandardsTypes acc plates = acc := by
  intro plates
  induction plates with
  | nil => intro acc _ _; rfl
  | cons p rest ih =>
    intro acc hall hmem
    have hp : p.standardsParams = t := hall p (by simp)
    simp only [collectStandardsTypes]
    rw [if_pos (hp ▸ hmem)]
    exact ih acc (fun q hq => hall q (by simp [hq])) hmem

/-- Helper: a non-empty group whose plates all declare the same standards
type collects exactly that one type. -/
lemma collectStandardsTypes_const (t : String) (plates : List LimsPlate)
    (hne : plates ≠ []) (hall : ∀ p ∈ plates, p.standardsParams = t) :
    collectStandardsTypes [] plates = [t] := by
  cases plates with
  | nil => exact absurd rfl hne
  | cons p rest =>
    have hp : p.standardsParams = t := hall p (by simp)
    simp only [collectStandardsTypes]
    rw [if_neg (by simp)]
    simp only [List.nil_append, hp]
    exact collectStandardsTypes_mem_fixed t rest [t]
      (fun q hq => hall q (by simp [hq])) (by simp)

/-- Helper: number of `perform_post_run_actions` invocations over any
monitoring trace is at most one. -/
lemma postActionInvocations_le_one (trace : List RunFileObservation) :
    postActionInvocations trace ≤ 1 := by
  induction trace with
  | nil => simp [postActionInvocations]
  | cons obs rest ih =>
    simp only [postActionInvocations]
    cases monitor_tempo_run_directory_step obs <;> simp [ih]

/-- Helper: polls whose step merely reschedules contribute nothing to the
invocation count. -/
lemma postActionInvocations_append (pre trace : List RunFileObservation)
    (hpre : ∀ o ∈ pre, monitor_tempo_run_directory_step o = .reschedule) :
    postActionInvocations (pre ++ trace) = postActionInvocations trace := by
  induction pre with
  | nil => rfl
  | cons o rest ih =>
    have ho : monitor_tempo_run_directory_step o = .reschedule := hpre o (by simp)
    simp only [List.cons_append, postActionInvocations, ho]
    exact ih (fun o ho' => hpre o (by simp [ho']))

/-- Helper: Python `str.replace` leaves a string without any occurrence of
the pattern unchanged. -/
lemma pyReplace_no_occurrence (old new : List Char) :
    ∀ s : List Char, ¬ old <:+: s → pyReplace old new s = s := by
  intro s
  induction s with
  | nil =>
    intro _
    rw [pyReplace]
  | cons c rest ih =>
    intro hno
    have hnp : ¬ (old ≠ [] ∧ old.isPrefixOf (c :: rest) = true) := by
      rintro ⟨_, hp⟩
      have hpref : old <+: c :: rest := List.isPrefixOf_iff_prefix.mp hp
      exact hno hpref.isInfix
    rw [pyReplace, dif_neg hnp]
    have htail : ¬ old <:+: rest := fun hi => hno (List.infix_cons hi)
    rw [ih htail]

/-- Helper: a line containing no substitution key is unchanged by the whole
key loop. -/
lemma substituteLine_no_occurrence (dict : List (String × String)) (line : String)
    (h : ∀ kv ∈ dict, ¬ kv.1.data <:+: line.data) :
    substituteLine dict line = line := by
  induction dict with
  | nil => rfl
  | cons kv rest ih =>
    unfold substituteLine at ih ⊢
    simp only [List.foldl_cons]
    have h1 : ¬ kv.1.data <:+: line.data := h kv (by simp)
    have hstep : (⟨pyReplace kv.1.data kv.2.data line.data⟩ : String) = line := by
      rw [pyReplace_no_occurrence kv.1.data kv.2.data line.data h1]
    rw [hstep]
    exact ih (fun kv' hkv' => h kv' (by simp [hkv']))

/-- Helper: every row produced by the Source→Black plate loop starting at
ordinal `k0` keeps its well position and targets the black plate with the
same ordinal as its source plate. -/
lemma srcToBlackGo_mem (cfg : StandardsConfig) :
    ∀ (plates : List LimsPlate) (k0 : Nat) (r : TransferRow),
      r ∈ srcToBlackGo cfg k0 plates →
      r.destWell = r.srcWell
      ∧ ∃ k, k0 ≤ k ∧ k < k0 + plates.length
          ∧ r.srcPlateName = "DNAQ_source_" ++ toString k
          ∧ r.destPlateName = "DNAQ_black_" ++ toString k := by
  intro plates
  induction plates with
  | nil =>
    intro k0 r hr
    simp [srcToBlackGo] at hr
  | cons p rest ih =>
    intro k0 r hr
    simp only [srcToBlackGo, List.mem_append] at hr
    cases hr with
    | inl h =>
      simp only [srcToBlackPlateRows, List.mem_map] at h
      obtain ⟨w, _, rfl⟩ := h
      exact ⟨rfl, k0, le_refl _, by simp, rfl, rfl⟩
    | inr h =>
      obtain ⟨heq, k, hk1, hk2, hn1, hn2⟩ := ih (k0 + 1) r h
      refine ⟨heq, k, by omega, ?_, hn1, hn2⟩
      simp only [List.length_cons]
      omega

/-- Helper: membership of list elements found by `get?`. -/
lemma get?_mem_of_eq {α : Type} {l : List α} {n : Nat} {a : α}
    (h : l.get? n = some a) : a ∈ l :=
  List.get?_mem h

/-- Helper: a successful `optMapList` preserves the length. -/
lemma optMapList_length {α β : Type} (f : α → Option β) :
    ∀ (l : List α) (res : List β), optMapList f l = some res → res.length = l.length := by
  intro l
  induction l with
  | nil =>
    intro res h
    simp only [optMapList, Option.some.injEq] at h
    simp [← h]
  | cons a rest ih =>
    intro res h
    simp only [optMapList] at h
    cases hfa : f a with
    | none => rw [hfa] at h; simp at h
    | some b =>
      rw [hfa] at h
      cases hrest : optMapList f rest with
      | none => rw [hrest] at h; simp at h
      | some bs =>
        rw [hrest] at h
        simp only [Option.some.injEq] at h
        simp [← h, ih bs hrest]

/-- Helper: `optMapList` succeeds when every element succeeds. -/
lemma optMapList_some_of_forall {α β : Type} (f : α → Option β) :
    ∀ l : List α, (∀ a ∈ l, ∃ b, f a = some b) →
      ∃ res, optMapList f l = some res ∧ res.length = l.length := by
  intro l
  induction l with
  | nil => intro _; exact ⟨[], rfl, rfl⟩
  | cons a rest ih =>
    intro hall
    obtain ⟨b, hb⟩ := hall a (by simp)
    obtain ⟨bs, hbs, hlen⟩ := ih (fun x hx => hall x (by simp [hx]))
    exact ⟨b :: bs, by simp [optMapList, hb, hbs], by simp [hlen]⟩

/-- Helper: every element of a successful `optMapList` result comes from a
successful application of the function. -/
lemma optMapList_mem {α β : Type} (f : α → Option β) :
    ∀ (l : List α) (res : List β), optMapList f l = some res →
      ∀ b ∈ res, ∃ a ∈ l, f a = some b := by
  intro l
  induction l with
  | nil =>
    intro res h b hb
    simp only [optMapList, Option.some.injEq] at h
    subst h
    simp at hb
  | cons a rest ih =>
    intro res h b hb
    simp only [optMapList] at h
    cases hfa : f a with
    | none => rw [hfa] at h; simp at h
    | some b' =>
      rw [hfa] at h
      cases hrest : optMapList f rest with
      | none => rw [hrest] at h; simp at h
      | some bs =>
        rw [hrest] at h
        simp only [Option.some.injEq] at h
        subst h
        rcases List.mem_cons.mp hb with hbc | hbs
        · exact ⟨a, by simp, by rw [hfa, hbc]⟩
        · obtain ⟨a', ha', hfa'⟩ := ih bs hrest b hbs
          exact ⟨a', by simp [ha'], hfa'⟩

/-- Helper: flattening lists of a common length multiplies. -/
lemma flatten_const_length {α : Type} (c : Nat) :
    ∀ ls : List (List α), (∀ x ∈ ls, x.length = c) →
      ls.flatten.length = ls.length * c := by
  intro ls
  induction ls with
  | nil => intro _; simp
  | cons x rest ih =>
    intro hall
    rw [List.flatten_cons, List.length_append, hall x (by simp),
      ih (fun y hy => hall y (by simp [hy])), List.length_cons]
    ring

/-- Helper: the Source→Pool plate loop starting at 1-based ordinal `k`
succeeds whenever the pool sections cover all remaining ordinals, and emits
one row per SAMPLE/CONTROL well. -/
lemma srcToStandardsGo_spec (cfg : StandardsConfig) :
    ∀ (plates : List LimsPlate) (k : Nat), 1 ≤ k →
      (k - 1) + plates.length ≤ cfg.poolSources.length →
      ∃ rows, srcToStandardsGo cfg k plates = some rows
        ∧ rows.length = (plates.map (fun p => (p.wells.filter isSampleOrControl).length)).sum := by
  intro plates
  induction plates with
  | nil =>
    intro k _ _
    exact ⟨[], rfl, rfl⟩
  | cons p rest ih =>
    intro k hk hcov
    simp only [List.length_cons] at hcov
    have hso : k - 1 < cfg.poolSources.length := by omega
    obtain ⟨ps, hps⟩ : ∃ ps, cfg.poolSources.get? (k - 1) = some ps :=
      ⟨_, List.get?_eq_get hso⟩
    obtain ⟨more, hmore, hlen⟩ := ih (k + 1) (by omega) (by simp; omega)
    refine ⟨srcToStandardsPlateRows cfg k p ps.standards_plt_pool_locn ++ more, ?_, ?_⟩
    · simp only [srcToStandardsGo, hps, hmore]
    · simp [srcToStandardsPlateRows, hlen]

/-- Helper: row count of the Source→Black plate loop. -/
lemma srcToBlackGo_length (cfg : StandardsConfig) :
    ∀ (plates : List LimsPlate) (k : Nat),
      (srcToBlackGo cfg k plates).length
        = (plates.map (fun p => (p.wells.filter isSampleOrControl).length)).sum := by
  intro plates
  induction plates with
  | nil => intro k; rfl
  | cons p rest ih =>
    intro k
    simp [srcToBlackGo, srcToBlackPlateRows, ih (k + 1)]

/-- Helper: the inner ladder loop succeeds for every replicate index within
the configured replicate count, with one row per ladder well. -/
lemma ladderRowsForRep_spec (cfg : StandardsConfig) (destName : String) (repIdx : Nat)
    (hlad : cfg.num_of_ladder_wells ≤ cfg.ladderWells.length)
    (hlocs : ∀ lw ∈ cfg.ladderWells,
      cfg.num_of_ladder_reps_black_plate ≤ lw.black_plt_well_locns.length)
    (hrep : repIdx < cfg.num_of_ladder_reps_black_plate) :
    ∃ rows, ladderRowsForRep cfg destName repIdx = some rows
      ∧ rows.length = cfg.num_of_ladder_wells := by
  unfold ladderRowsForRep
  have hforall : ∀ j ∈ List.range cfg.num_of_ladder_wells,
      ∃ row, ladderRow cfg destName repIdx (j + 1) = some row := by
    intro j hj
    rw [List.mem_range] at hj
    have hj2 : j < cfg.ladderWells.length := lt_of_lt_of_le hj hlad
    obtain ⟨lw, hlw⟩ : ∃ lw, cfg.ladderWells.get? j = some lw := ⟨_, List.get?_eq_get hj2⟩
    have hmem : lw ∈ cfg.ladderWells := get?_mem_of_eq hlw
    have hdlt : repIdx < lw.black_plt_well_locns.length :=
      lt_of_lt_of_le hrep (hlocs lw hmem)
    obtain ⟨dw, hdw⟩ : ∃ dw, lw.black_plt_well_locns.get? repIdx = some dw :=
      ⟨_, List.get?_eq_get hdlt⟩
    rw [List.get?_eq_getElem?] at hlw hdw
    refine ⟨⟨"DNAQ_standards", none, "384PP_AQ_SP_High", lw.well_posn,
      lw.vol_to_dispense_nl, destName, none, "Corning_384PS_Black", dw⟩, ?_⟩
    simp [ladderRow, Nat.add_sub_cancel, hlw, hdw]
  obtain ⟨res, hres, hlen⟩ :=
    optMapList_some_of_forall (fun j => ladderRow cfg destName repIdx (j + 1))
      (List.range cfg.num_of_ladder_wells) hforall
  exact ⟨res, hres, by simp [hlen]⟩

/-- Helper: the whole ladder block succeeds and contains
`num_of_ladder_wells * num_of_ladder_reps_black_plate` rows. -/
lemma ladderRowsAll_spec (cfg : StandardsConfig) (destName : String)
    (hlad : cfg.num_of_ladder_wells ≤ cfg.ladderWells.length)
    (hlocs : ∀ lw ∈ cfg.ladderWells,
      cfg.num_of_ladder_reps_black_plate ≤ lw.black_plt_well_locns.length) :
    ∃ rows, ladderRowsAll cfg destName = some rows
      ∧ rows.length = cfg.num_of_ladder_wells * cfg.num_of_ladder_reps_black_plate := by
  unfold ladderRowsAll
  have hforall : ∀ r ∈ List.range cfg.num_of_ladder_reps_black_plate,
      ∃ rows, ladderRowsForRep cfg destName r = some rows := by
    intro r hr
    rw [List.mem_range] at hr
    obtain ⟨rows, hrows, _⟩ := ladderRowsForRep_spec cfg destName r hlad hlocs hr
    exact ⟨rows, hrows⟩
  obtain ⟨ls, hls, hlslen⟩ :=
    optMapList_some_of_forall (ladderRowsForRep cfg destName)
      (List.range cfg.num_of_ladder_reps_black_plate) hforall
  refine ⟨ls.flatten, by simp [hls], ?_⟩
  have hconst : ∀ x ∈ ls, x.length = cfg.num_of_ladder_wells := by
    intro x hx
    obtain ⟨r, hrmem, hfx⟩ := optMapList_mem _ _ _ hls x hx
    rw [List.mem_range] at hrmem
    obtain ⟨rows, hrows, hrowlen⟩ := ladderRowsForRep_spec cfg destName r hlad hlocs hrmem
    rw [hrows] at hfx
    cases hfx
    exact hrowlen
  rw [flatten_const_length _ ls hconst, hlslen, List.length_range]
  ring

/-- Helper: the pool-replicate loop for one source plate ordinal succeeds
with one row per pool replicate. -/
lemma poolRowsForPlate_spec (cfg : StandardsConfig) (destName : String) (k : Nat)
    (hk1 : 1 ≤ k) (hk2 : k ≤ cfg.poolSources.length)
    (hlocs : ∀ ps ∈ cfg.poolSources,
      cfg.num_of_pool_reps_black_plate ≤ ps.black_plt_well_locns.length) :
    ∃ rows, poolRowsForPlate cfg destName k = some rows
      ∧ rows.length = cfg.num_of_pool_reps_black_plate := by
  have hso : k - 1 < cfg.poolSources.length := by omega
  obtain ⟨ps, hps⟩ : ∃ ps, cfg.poolSources.get? (k - 1) = some ps :=
    ⟨_, List.get?_eq_get hso⟩
  have hmem : ps ∈ cfg.poolSources := get?_mem_of_eq hps
  unfold poolRowsForPlate
  rw [hps]
  have hforall : ∀ r ∈ List.range cfg.num_of_pool_reps_black_plate,
      ∃ row, (match ps.black_plt_well_locns.get? r with
        | none => none
        | some destWell =>
          some { srcPlateName := "DNAQ_standards"
                 srcPlateBarcode := none
                 srcPlateType := "384PP_AQ_SP_High"
                 srcWell := ps.standards_plt_pool_locn
                 transferVolume := cfg.vol_pool_to_black_plate_nl
                 destPlateName := destName
                 destPlateBarcode := none
                 destPlateType := "Corning_384PS_Black"
                 destWell := destWell } : Option TransferRow) = some row := by
    intro r hr
    rw [List.mem_range] at hr
    have hdlt : r < ps.black_plt_well_locns.length := lt_of_lt_of_le hr (hlocs ps hmem)
    obtain ⟨dw, hdw⟩ : ∃ dw, ps.black_plt_well_locns.get? r = some dw :=
      ⟨_, List.get?_eq_get hdlt⟩
    exact ⟨_, by rw [hdw]⟩
  obtain ⟨res, hres, hlen⟩ := optMapList_some_of_forall _
    (List.range cfg.num_of_pool_reps_black_plate) hforall
  exact ⟨res, hres, by simp [hlen]⟩

/-- Helper: the whole pool block succeeds and contains
`numSrcPlts * num_of_pool_reps_black_plate` rows. -/
lemma poolRowsAll_spec (cfg : StandardsConfig) (destName : String) (numSrcPlts : Nat)
    (hpool : numSrcPlts ≤ cfg.poolSources.length)
    (hlocs : ∀ ps ∈ cfg.poolSources,
      cfg.num_of_pool_reps_black_plate ≤ ps.black_plt_well_locns.length) :
    ∃ rows, poolRowsAll cfg destName numSrcPlts = some rows
      ∧ rows.length = numSrcPlts * cfg.num_of_pool_reps_black_plate := by
  unfold poolRowsAll
  have hforall : ∀ j ∈ List.range numSrcPlts,
      ∃ rows, poolRowsForPlate cfg destName (j + 1) = some rows := by
    intro j hj
    rw [List.mem_range] at hj
    obtain ⟨rows, hrows, _⟩ := poolRowsForPlate_spec cfg destName (j + 1)
      (by omega) (by omega) hlocs
    exact ⟨rows, hrows⟩
  obtain ⟨ls, hls, hlslen⟩ :=
    optMapList_some_of_forall (fun j => poolRowsForPlate cfg destName (j + 1))
      (List.range numSrcPlts) hforall
  refine ⟨ls.flatten, by simp [hls], ?_⟩
  have hconst : ∀ x ∈ ls, x.length = cfg.num_of_pool_reps_black_plate := by
    intro x hx
    obtain ⟨j, hjmem, hfx⟩ := optMapList_mem _ _ _ hls x hx
    rw [List.mem_range] at hjmem
    obtain ⟨rows, hrows, hrowlen⟩ := poolRowsForPlate_spec cfg destName (j + 1)
      (by omega) (by omega) hlocs
    rw [hrows] at hfx
    cases hfx
    exact hrowlen
  rw [flatten_const_length _ ls hconst, hlslen, List.length_range]

/-! ## Claim theorems -/

/-- C10: the user-visible message queue is bounded: after every
`display_message` call the queue holds at most 25 entries; when the new
message would exceed that bound the oldest message (and only the oldest) is
discarded, preserving the arrival order of the remaining messages. -/
theorem display_message_queue_bounded (q : List QueuedMessage) (e : Bool) (m : String)
    (h : q.length ≤ message_queue_size) :
    (display_message q e m).length ≤ message_queue_size
    ∧ (q.length < message_queue_size → display_message q e m = q ++ [⟨e, m⟩])
    ∧ (q.length = message_queue_size → display_message q e m = q.tail ++ [⟨e, m⟩]) := by
  unfold display_message
  by_cases hc : message_queue_size < (q ++ [(⟨e, m⟩ : QueuedMessage)]).length
  · rw [if_pos hc]
    have hq : q ≠ [] := by
      intro hnil
      subst hnil
      simp [message_queue_size] at hc
    refine ⟨?_, ?_, ?_⟩
    · simp only [List.length_tail, List.length_append, List.length_cons,
        List.length_nil]
      omega
    · intro hlt
      simp only [List.length_append, List.length_cons, List.length_nil] at hc
      omega
    · intro _
      cases q with
      | nil => exact absurd rfl hq
      | cons a as => simp
  · rw [if_neg hc]
    refine ⟨?_, fun _ => rfl, ?_⟩
    · simp only [List.length_append, List.length_cons, List.length_nil] at hc ⊢
      omega
    · intro heq
      simp only [List.length_append, List.length_cons, List.length_nil, heq] at hc
      omega

/-- Witness for C10: pushing one more message onto a full 25-element queue
keeps the bound. -/
theorem display_message_queue_bounded_witness :
    (display_message (List.replicate 25 (⟨false, "old"⟩ : QueuedMessage)) true "new").length
      ≤ message_queue_size :=
  (display_message_queue_bounded (List.replicate 25 (⟨false, "old"⟩ : QueuedMessage)) true "new"
    (by simp [message_queue_size])).1

/-- C2: pure well-position arithmetic (modelled from the spec): for every
initial position with row letter and column number and every 1-based
replicate index `i`, the destination keeps the row letter and has column
`C + (i - 1)`; the computation fails with `PlateBoundaryError` (no wrap)
exactly when that column exceeds 24; e.g. "A10" with replicate index 16
fails while replicate index 15 yields "A24". -/
theorem replicate_well_position_spec (p : WellPos) (i : Nat) (h : 1 ≤ i) :
    (p.col + (i - 1) ≤ plateColumnCount →
      replicateWellPosition p i = .ok ⟨p.row, p.col + (i - 1)⟩)
    ∧ (plateColumnCount < p.col + (i - 1) →
      replicateWellPosition p i = .error "PlateBoundaryError")
    ∧ replicateWellPosition ⟨'A', 10⟩ 16 = .error "PlateBoundaryError"
    ∧ ∃ q, replicateWellPosition ⟨'A', 10⟩ 15 = .ok q ∧ q.render = "A24" := by
  refine ⟨?_, ?_, rfl, ⟨⟨'A', 24⟩, rfl, rfl⟩⟩
  · intro hle
    unfold replicateWellPosition
    rw [if_neg (by omega)]
  · intro hgt
    unfold replicateWellPosition
    rw [if_pos (by omega)]

/-- Witness for C2: replicate index 15 from "A10" stays in row A at
column 24. -/
theorem replicate_well_position_spec_witness :
    replicateWellPosition ⟨'A', 10⟩ 15 = .ok ⟨'A', 24⟩ :=
  (replicate_well_position_spec ⟨'A', 10⟩ 15 (by decide)).1 (by decide)

/-- C5 counterexample: a run-state document that fails to parse does NOT
lead to a rescheduled poll — `monitor_tempo_run_directory` reports the error
and returns, so polling of that run's state file does not continue. -/
theorem monitor_parse_failure_counterexample :
    monitor_tempo_run_directory_step RunFileObservation.parseFailure ≠
      MonitorAction.reschedule := by
  decide

/-- C5 (amended): a run-state document that fails to parse is reported and
the workflow state is unchanged, but the method returns without scheduling
another poll: monitoring of that run terminates and no post-action is ever
invoked on the rest of the trace. -/
theorem monitor_parse_failure_stops_polling (rest : List RunFileObservation) :
    monitor_tempo_run_directory_step RunFileObservation.parseFailure =
      MonitorAction.reportErrorAndStop
    ∧ postActionInvocations (RunFileObservation.parseFailure :: rest) = 0 := by
  exact ⟨rfl, rfl⟩

/-- C6: when a run's state document reports Complete, the post-action
handler is invoked exactly once and no further poll of that run's state file
is scheduled — over any monitoring trace the handler fires at most once, and
once it has fired a re-observed Complete state can never fire it again; for
the last run of a stage (`dnaq_process_standards_run_2`,
`dnaq_process_dna_sources_run_1`) the post-action marks the stage complete. -/
theorem complete_post_action_exactly_once (pre post : List RunFileObservation)
    (hpre : ∀ o ∈ pre, monitor_tempo_run_directory_step o = MonitorAction.reschedule) :
    monitor_tempo_run_directory_step (RunFileObservation.runState "Complete") =
      MonitorAction.postRunActions
    ∧ postActionInvocations (pre ++ RunFileObservation.runState "Complete" :: post) = 1
    ∧ (∀ trace : List RunFileObservation, postActionInvocations trace ≤ 1)
    ∧ perform_post_run_actions "dnaq_process_standards_run_2" = PostRunOutcome.stageComplete
    ∧ perform_post_run_actions "dnaq_process_dna_sources_run_1" = PostRunOutcome.stageComplete := by
  refine ⟨by decide, ?_, postActionInvocations_le_one, by decide, by decide⟩
  rw [postActionInvocations_append pre _ hpre]
  rfl

/-- Witness for C6: two inconclusive polls, then Complete; a later
re-observation of Complete does not fire a second post-action. -/
theorem complete_post_action_exactly_once_witness :
    postActionInvocations
      [RunFileObservation.noFile, RunFileObservation.runState "Running",
       RunFileObservation.runState "Complete", RunFileObservation.runState "Complete"] = 1 :=
  (complete_post_action_exactly_once
    [RunFileObservation.noFile, RunFileObservation.runState "Running"]
    [RunFileObservation.runState "Complete"] (by decide)).2.1

/-- C4 (code bug): for a standards-stage RunDef whose single extracted run
passes the reference-id and run-id checks, the run-count check fails, but
the error branch evaluates `run_ids.len` — an `AttributeError` on a Python
list — so the method dies before `display_message` can report anything
(the claim says an error is reported on any violation); no per-run
monitoring begins. -/
theorem check_rundef_count_mismatch_crashes :
    extractRunIds "G1" [⟨some "5", "G1;1"⟩] = .ok ["5"]
    ∧ check_rundef_file_and_extract_run_ids "dnaq_process_standards" "G1"
        [⟨some "5", "G1;1"⟩] = CheckRundefOutcome.attributeErrorCrash := by
  exact ⟨rfl, rfl⟩

/-- C9: control-document generation applies token substitution line-by-line
over the template (one output line per template line — the only failure mode
is the surrounding file I/O), and a template line containing no known token
is written out unchanged rather than causing generation to fail. -/
theorem rundef_template_substitution (dict : List (String × String))
    (templateLines : List String) (line : String)
    (h : ∀ kv ∈ dict, ¬ kv.1.data <:+: line.data) :
    (create_rundef_file_from_template dict templateLines).length = templateLines.length
    ∧ substituteLine dict line = line
    ∧ (line ∈ templateLines → line ∈ create_rundef_file_from_template dict templateLines) := by
  have hline : substituteLine dict line = line := substituteLine_no_occurrence dict line h
  refine ⟨?_, hline, ?_⟩
  · unfold create_rundef_file_from_template
    exact List.length_map _ _
  · intro hmem
    unfold create_rundef_file_from_template
    have : substituteLine dict line ∈ templateLines.map (substituteLine dict) :=
      List.mem_map_of_mem _ hmem
    rwa [hline] at this

/-- Witness for C9: a template line matching no key of a one-entry
substitution dictionary passes through unchanged. -/
theorem rundef_template_substitution_witness :
    substituteLine [("SSS_RUNSET_REFERENCE_ID_SSS", "GRP_42")] "<RunDefinition>" =
      "<RunDefinition>" :=
  (rundef_template_substitution [("SSS_RUNSET_REFERENCE_ID_SSS", "GRP_42")]
    ["<RunDefinition>"] "<RunDefinition>" (by decide)).2.1

/-- C3: validation rejects a group whose plate list is empty and rejects a
group whose plates collectively declare more than one distinct standards
type, in both cases before any output file is created (zero output files);
on success every plate of the group carries the single resolved standards
type. -/
theorem validate_rejects_empty_and_mixed (doc : RawGroupDoc) (cfg : StandardsConfig)
    (plates : List LimsPlate) (hp : doc.plates = some plates) :
    (plates = [] → validate_data_lims_src_plt_grp doc = none
      ∧ process_group_files doc cfg = [])
    ∧ (∀ p q, p ∈ plates → q ∈ plates → p.standardsParams ≠ q.standardsParams →
        validate_data_lims_src_plt_grp doc = none ∧ process_group_files doc cfg = [])
    ∧ (∀ s, validate_data_lims_src_plt_grp doc = some s →
        ∀ p ∈ plates, p.standardsParams = s.standards_type) := by
  obtain ⟨gidOpt, platesOpt⟩ := doc
  simp only at hp
  subst hp
  cases gidOpt with
  | none =>
    refine ⟨fun _ => ⟨rfl, rfl⟩, fun p q _ _ _ => ⟨rfl, rfl⟩, fun s hs => ?_⟩
    simp [validate_data_lims_src_plt_grp] at hs
  | some gid =>
    refine ⟨?_, ?_, ?_⟩
    · intro hnil
      subst hnil
      exact ⟨by simp [validate_data_lims_src_plt_grp],
        by simp [process_group_files, validate_data_lims_src_plt_grp]⟩
    · intro p q hpmem hqmem hne
      by_cases hallsup : ∀ r ∈ plates, r.standardsParams ∈ valid_quant_standards
      · exfalso
        have hp2 := hallsup p hpmem
        have hq2 := hallsup q hqmem
        simp [valid_quant_standards] at hp2 hq2
        exact hne (hp2.trans hq2.symm)
      · have hany : plates.any (fun r => ¬ r.standardsParams ∈ valid_quant_standards) = true := by
          push_neg at hallsup
          obtain ⟨r, hr, hrns⟩ := hallsup
          simp only [List.any_eq_true]
          exact ⟨r, hr, by simp [hrns]⟩
        have h0 : ¬ plates.length = 0 := by
          intro h0
          rw [List.length_eq_zero] at h0
          subst h0
          simp at hpmem
        have hnone : validate_data_lims_src_plt_grp ⟨some gid, some plates⟩ = none := by
          simp only [validate_data_lims_src_plt_grp]
          rw [if_neg h0, if_pos hany]
        exact ⟨hnone, by simp [process_group_files, hnone]⟩
    · intro s hs p hpmem
      simp only [validate_data_lims_src_plt_grp] at hs
      split at hs
      · exact absurd hs (by simp)
      split at hs
      · exact absurd hs (by simp)
      next h0 hany =>
        have hall : ∀ r ∈ plates, r.standardsParams = "SS2" := by
          intro r hr
          by_contra hne2
          apply hany
          simp only [List.any_eq_true]
          exact ⟨r, hr, by simp [valid_quant_standards, hne2]⟩
        have hnil : plates ≠ [] := by
          intro hn
          subst hn
          simp at h0
        have hcollect : collectStandardsTypes [] plates = ["SS2"] :=
          collectStandardsTypes_const "SS2" plates hnil hall
        rw [hcollect] at hs
        split at hs
        · exact absurd hs (by simp)
        have hstype : s.standards_type = "SS2" := by
          cases hs
          rfl
        rw [hstype]
        exact hall p hpmem

/-- Witness for C3: a two-plate group declaring standards types "SS2" and
"GDNA" is rejected and produces zero output files. -/
theorem validate_rejects_empty_and_mixed_witness :
    validate_data_lims_src_plt_grp docMixedW = none
    ∧ process_group_files docMixedW cfgW = [] :=
  (validate_rejects_empty_and_mixed docMixedW cfgW [plateW1, plateW2] rfl).2.1
    plateW1 plateW2 (by simp) (by simp) (by decide)

/-- C7: in the Source→Black transfer plan every generated row's destination
well position is identical to its source well position (no position
remapping), and the destination plate for source plate ordinal `k` is that
plate's dedicated black plate `DNAQ_black_k`, named with the same
ordinal. -/
theorem sources_to_black_identity_transfer (s : DataSummary) (cfg : StandardsConfig)
    (r : TransferRow) (hr : r ∈ generate_sources_to_black_rows s cfg) :
    r.destWell = r.srcWell
    ∧ ∃ k, 1 ≤ k ∧ k ≤ s.plates.length
        ∧ r.srcPlateName = "DNAQ_source_" ++ toString k
        ∧ r.destPlateName = "DNAQ_black_" ++ toString k := by
  obtain ⟨heq, k, hk1, hk2, hn1, hn2⟩ := srcToBlackGo_mem cfg s.plates 1 r hr
  exact ⟨heq, k, hk1, by omega, hn1, hn2⟩

/-- Witness for C7: the row generated for well A1 of the sample plate goes
to well A1 of black plate 1. -/
theorem sources_to_black_identity_transfer_witness :
    rowW.destWell = rowW.srcWell
    ∧ ∃ k, 1 ≤ k ∧ k ≤ summaryW.plates.length
        ∧ rowW.srcPlateName = "DNAQ_source_" ++ toString k
        ∧ rowW.destPlateName = "DNAQ_black_" ++ toString k :=
  sources_to_black_identity_transfer summaryW cfgW rowW (by decide)

/-- C1: for a validated group of N source plates in which plate k has S_k
SAMPLE/CONTROL wells, and a standards configuration whose ladder and pool
sections cover the required indices, the three transfer csv files are
generated with exactly sum(S_k) data rows in Source→Pool, sum(S_k) data rows
in Source→Black, and
`num_of_ladder_wells * num_of_ladder_reps_black_plate +
 N * num_of_pool_reps_black_plate` data rows in Standards→Black, each file
carrying one fixed header row; wells of any other role contribute no rows. -/
theorem echo_csv_row_counts (s : DataSummary) (cfg : StandardsConfig)
    (hpool : s.plates.length ≤ cfg.poolSources.length)
    (hlad : cfg.num_of_ladder_wells ≤ cfg.ladderWells.length)
    (hladlocs : ∀ lw ∈ cfg.ladderWells,
      cfg.num_of_ladder_reps_black_plate ≤ lw.black_plt_well_locns.length)
    (hpoollocs : ∀ ps ∈ cfg.poolSources,
      cfg.num_of_pool_reps_black_plate ≤ ps.black_plt_well_locns.length) :
    ∃ f1 f3,
      sources_to_standards_csv s cfg = some f1
      ∧ f1.length = 1 + sampleControlTotal s
      ∧ f1.head? = some csvHeader
      ∧ (sources_to_black_csv s cfg).length = 1 + sampleControlTotal s
      ∧ (sources_to_black_csv s cfg).head? = some csvHeader
      ∧ standards_to_black_csv s cfg = some f3
      ∧ f3.length = 1 + (cfg.num_of_ladder_wells * cfg.num_of_ladder_reps_black_plate
          + s.plates.length * cfg.num_of_pool_reps_black_plate)
      ∧ f3.head? = some csvHeader := by
  obtain ⟨r1, hr1, hr1len⟩ :=
    srcToStandardsGo_spec cfg s.plates 1 (by omega) (by simpa using hpool)
  obtain ⟨lrows, hl, hllen⟩ :=
    ladderRowsAll_spec cfg (standardsBlackPlateName s) hlad hladlocs
  obtain ⟨prows, hpr, hprlen⟩ :=
    poolRowsAll_spec cfg (standardsBlackPlateName s) s.plates.length hpool hpoollocs
  refine ⟨csvHeader :: r1.map (·.cells), csvHeader :: (lrows ++ prows).map (·.cells),
    ?_, ?_, rfl, ?_, rfl, ?_, ?_, rfl⟩
  · simp [sources_to_standards_csv, generate_sources_to_standards_rows, hr1]
  · simp only [List.length_cons, List.length_map, hr1len, sampleControlTotal]
    omega
  · simp only [sources_to_black_csv, List.length_cons, List.length_map,
      generate_sources_to_black_rows, srcToBlackGo_length, sampleControlTotal]
    omega
  · simp [standards_to_black_csv, generate_standards_to_black_rows, hl, hpr]
  · simp only [List.length_cons, List.length_map, List.length_append, hllen, hprlen]
    omega

/-- Witness for C1: the sample one-plate group (two SAMPLE/CONTROL wells,
one EMPTY well) with the sample configuration (2 ladder wells, 2 ladder
replicates, 2 pool replicates) yields files of 1+2, 1+2 and 1+(4+2) rows. -/
theorem echo_csv_row_counts_witness :
    ∃ f1 f3,
      sources_to_standards_csv summaryW cfgW = some f1
      ∧ f1.length = 1 + sampleControlTotal summaryW
      ∧ f1.head? = some csvHeader
      ∧ (sources_to_black_csv summaryW cfgW).length = 1 + sampleControlTotal summaryW
      ∧ (sources_to_black_csv summaryW cfgW).head? = some csvHeader
      ∧ standards_to_black_csv summaryW cfgW = some f3
      ∧ f3.length = 1 + (cfgW.num_of_ladder_wells * cfgW.num_of_ladder_reps_black_plate
          + summaryW.plates.length * cfgW.num_of_pool_reps_black_plate)
      ∧ f3.head? = some csvHeader :=
  echo_csv_row_counts summaryW cfgW (by decide) (by decide) (by decide) (by decide)

/-- Helper: peeling the first element off a mapped range. -/
lemma range_map_shift {β : Type} (g : Nat → β) (n : Nat) :
    (List.range (n + 1)).map g = g 0 :: (List.range n).map (fun j => g (j + 1)) := by
  rw [List.range_succ_eq_map]
  simp [List.map_map, Function.comp]

/-- Helper: unfolding one step of `contiguousFrom`. -/
lemma contiguousFrom_succ (posn : Int) (n : Nat) :
    contiguousFrom posn (n + 1) = posn :: contiguousFrom (posn + 1) n := by
  unfold contiguousFrom
  rw [range_map_shift]
  simp only [Nat.cast_zero, add_zero, List.cons.injEq, true_and]
  apply List.map_congr_left
  intro a _
  push_cast
  ring

/-- Helper: barcodes and stack positions of the trailing source rows of the
pooling platemap block: positions are contiguous from the start position, in
barcode (group) order. -/
lemma poolingSourceRowsGo_spec :
    ∀ (barcodes : List String) (k : Nat) (posn : Int),
      ((poolingSourceRowsGo k posn barcodes).filter
          (fun r => r.category == "Source")).map (fun r => (r.barcode, r.locationPosn))
        = barcodes.zip (contiguousFrom posn barcodes.length) := by
  intro barcodes
  induction barcodes with
  | nil => intro k posn; simp [poolingSourceRowsGo, contiguousFrom]
  | cons b rest ih =>
    intro k posn
    rw [List.length_cons, contiguousFrom_succ]
    simp only [poolingSourceRowsGo, mkSourcePlateRow, List.filter_cons]
    simp [List.zip_cons_cons, ih (k + 1) (posn + 1)]

/-- Helper: the interleaved source/destination loop of the sources-to-black
platemap block: source stack positions ascend from the initial position in
group order while destination black plates take descending stack positions
with ascending ordinal names. -/
lemma sourcesToBlackRowsGo_spec (numSrc : Nat) :
    ∀ (barcodes : List String) (k : Nat) (sp dp : Int),
      (((sourcesToBlackRowsGo numSrc k sp dp barcodes).filter
          (fun r => r.category == "Source")).map (fun r => (r.barcode, r.locationPosn))
        = barcodes.zip (contiguousFrom sp barcodes.length))
      ∧ (((sourcesToBlackRowsGo numSrc k sp dp barcodes).filter
          (fun r => r.category == "Destination")).map (fun r => (r.plateName, r.locationPosn))
        = (List.range barcodes.length).map
            (fun (j : Nat) => ("DNAQ_black_" ++ zeroPad2 (k + j), dp - (j : Int)))) := by
  intro barcodes
  induction barcodes with
  | nil =>
    intro k sp dp
    exact ⟨by simp [sourcesToBlackRowsGo, contiguousFrom], by simp [sourcesToBlackRowsGo]⟩
  | cons b rest ih =>
    intro k sp dp
    obtain ⟨ih1, ih2⟩ := ih (k + 1) (sp + 1) (dp - 1)
    constructor
    · rw [List.length_cons, contiguousFrom_succ]
      simp only [sourcesToBlackRowsGo, mkSourcePlateRow, List.filter_cons]
      simp [List.zip_cons_cons, ih1]
    · rw [List.length_cons, range_map_shift]
      simp only [sourcesToBlackRowsGo, mkSourcePlateRow, List.filter_cons]
      simp only [Nat.cast_zero, sub_zero, Nat.add_zero]
      simp [ih2]
      intro a _
      constructor
      · rw [show k + 1 + a = k + (a + 1) from by omega]
      · push_cast
        ring

/-- Helper: the plate-storage destination loop pairs ascending stack
positions with descending name ordinals. -/
lemma storageDestRowsGo_spec :
    ∀ (n : Nat) (pid nameNum sp : Int),
      (storageDestRowsGo pid nameNum sp n).map (fun r => (r.stackPosn, r.plateNameNum))
        = (List.range n).map (fun (j : Nat) => (sp + (j : Int), nameNum - (j : Int))) := by
  intro n
  induction n with
  | zero => intro pid nn sp; simp [storageDestRowsGo]
  | succ m ih =>
    intro pid nn sp
    simp only [storageDestRowsGo, List.map_cons, ih (pid - 1) (nn - 1) (sp + 1)]
    rw [range_map_shift]
    simp only [Nat.cast_zero, add_zero, sub_zero, List.cons.injEq, true_and]
    apply List.map_congr_left
    intro a _
    simp only [Prod.mk.injEq]
    constructor <;> (push_cast; ring)

/-- C8: in the generated RunDef dictionary the N source plates are assigned
the contiguous stack positions `initStkPosn .. initStkPosn + N - 1` in group
order (in both the pooling and the sources-to-black plate blocks), while
destination black-plate naming runs opposite to stack position: black plate
ordinal k sits at deck-4 stack position `loaded - (k - 1)`, and equivalently
the storage row at stack position p carries name ordinal `loaded - p + 1`
for p = 1..loaded; the standards black plate (ordinal N+1) sits at stack
position `loaded - N`. -/
theorem rundef_stack_positions (barcodes : List String)
    (initStkPosn stndPltStkPosn : Int) (loaded : Nat) (hne : barcodes ≠ []) :
    (((pooling_platemap_rows barcodes initStkPosn stndPltStkPosn).filter
        (fun r => r.category == "Source")).map (fun r => (r.barcode, r.locationPosn))
      = barcodes.zip (contiguousFrom initStkPosn barcodes.length))
    ∧ (((sources_platemap_rows barcodes initStkPosn (loaded : Int)).filter
        (fun r => r.category == "Source")).map (fun r => (r.barcode, r.locationPosn))
      = barcodes.zip (contiguousFrom initStkPosn barcodes.length))
    ∧ (((sources_platemap_rows barcodes initStkPosn (loaded : Int)).filter
        (fun r => r.category == "Destination")).map (fun r => (r.plateName, r.locationPosn))
      = (List.range barcodes.length).map
          (fun (j : Nat) => ("DNAQ_black_" ++ zeroPad2 (j + 1), (loaded : Int) - (j : Int))))
    ∧ ((plate_storage_dest_rows loaded).map (fun r => (r.stackPosn, r.plateNameNum))
      = (List.range loaded).map
          (fun (j : Nat) => (1 + (j : Int), (loaded : Int) - (j : Int))))
    ∧ ((standards_platemap_rows barcodes.length stndPltStkPosn (loaded : Int)).get? 1
      = some ⟨2, "DNAQ_black_" ++ zeroPad2 (barcodes.length + 1), "Corning_384PS_Black",
          "", "Destination", 4, (loaded : Int) - (barcodes.length : Int)⟩) := by
  refine ⟨?_, ?_, ?_, ?_, rfl⟩
  · cases barcodes with
    | nil => exact absurd rfl hne
    | cons b rest =>
      rw [List.length_cons, contiguousFrom_succ]
      simp only [pooling_platemap_rows, mkSourcePlateRow, List.filter_cons]
      simp [List.zip_cons_cons, poolingSourceRowsGo_spec rest 2 (initStkPosn + 1)]
  · exact (sourcesToBlackRowsGo_spec barcodes.length barcodes 1 initStkPosn (loaded : Int)).1
  · have h := (sourcesToBlackRowsGo_spec barcodes.length barcodes 1 initStkPosn (loaded : Int)).2
    rw [sources_platemap_rows, h]
    apply List.map_congr_left
    intro a _
    rw [show 1 + a = a + 1 from by omega]
  · rw [plate_storage_dest_rows, storageDestRowsGo_spec loaded 1880 (loaded : Int) 1]

/-- Witness for C8: three source plates starting at stack position 5 with
six loaded black plates. -/
theorem rundef_stack_positions_witness :
    (((pooling_platemap_rows ["BC1", "BC2", "BC3"] 5 4).filter
        (fun r => r.category == "Source")).map (fun r => (r.barcode, r.locationPosn))
      = [("BC1", 5), ("BC2", 6), ("BC3", 7)])
    ∧ ((plate_storage_dest_rows 6).map (fun r => (r.stackPosn, r.plateNameNum))
      = [(1, 6), (2, 5), (3, 4), (4, 3), (5, 2), (6, 1)]) := by
  have h := rundef_stack_positions ["BC1", "BC2", "BC3"] 5 4 6 (by simp)
  refine ⟨?_, ?_⟩
  · rw [h.1]
    rfl
  · rw [h.2.2.2.1]
    rfl

end AccessSystem
